import Mathlib

/-!
Shallow embedding of the tournament troubleshooting commands
(`tournaments/troubleshooting.py`) of the Laggrons-Dumb-Cogs repository.

One tenant (guild) is modelled: `CogState` holds the Tenant Registry entry
(`tournaments`, `none` when no live aggregate is registered) and the
Persistence Store entry (`store`, `none` standing for the empty marker
written as the Python dict literal in the source). Every command is a pure
function from a state, together with oracles for the fallible external
collaborators, to the new state and the ordered list of observable effects:
persistence writes, loop starts and stops, restore attempts, external
platform calls, and the messages sent back to the operator.
-/

namespace TFix

inductive Phase
  | pending
  | register
  | checkin
  | awaiting_start
  | ongoing
  | ended
deriving DecidableEq, Repr

inductive MatchState
  | pending
  | ongoing
  | finished
  | flagged_afk
deriving DecidableEq, Repr

structure GameMatch where
  mid : Nat
  channel : Option Nat
  state : MatchState
  lastActivity : Nat
  afkEnabled : Bool
deriving DecidableEq, Repr

structure Participant where
  pid : Nat
deriving DecidableEq, Repr

structure Tournament where
  tid : Nat
  name : String
  limit : Option Nat
  phase : Phase
  participants : List Participant
  matchList : List GameMatch
  participant_role : Option Nat
  taskRunning : Bool
deriving DecidableEq, Repr

structure CogState where
  tournaments : Option Tournament
  store : Option Tournament
deriving DecidableEq, Repr

inductive Msg
  | noTournament
  | wrongPhase (current : Phase) (allowed : List Phase)
  | alreadySetup
  | nothingOnDisk
  | restoreFailed
  | restored
  | reloaded
  | reloadFailed
  | hardResetDone
  | matchesReset
  | matchesResetDeleting
  | channelsDeleted (failed : Nat)
  | participantsReset
  | participantsResetRemoving
  | rolesRemoved (failed : Nat)
  | refreshed
  | taskNotActive
  | loopStopped
  | resumeFailed
  | resumed
  | tickError
  | tickDone
deriving DecidableEq, Repr

inductive Eff
  | save
  | stopLoop
  | startLoop
  | restoreAttempt
  | runTickOnce
  | deleteChannel (ch : Nat)
  | removeRole (p : Nat)
  | bracketFetch (tid : Nat)
  | send (m : Msg)
deriving DecidableEq, Repr

/-- External effects in the sense of the hard-reset contract: bracket-service
calls and platform-resource deletions or role changes. -/
def isExternal : Eff → Bool
  | Eff.deleteChannel _ => true
  | Eff.removeRole _ => true
  | Eff.bracketFetch _ => true
  | _ => false

/-- Modelled from the spec: the `only_phase` decorator (defined in `utils.py`,
which is not among the provided sources). An operation invoked with no live
aggregate fails with `NoActiveTournament`; one invoked while the aggregate's
phase is outside the declared allowed set fails with
`PhaseMismatch(current, allowed)`; the check runs before the operation body.
An empty `allowed` list stands for the no-argument decorator form, which
accepts every phase. -/
def only_phase (allowed : List Phase) (st : CogState)
    (body : Tournament → CogState × List Eff) : CogState × List Eff :=
  match st.tournaments with
  | none => (st, [Eff.send Msg.noTournament])
  | some t =>
      if allowed = [] ∨ t.phase ∈ allowed then body t
      else (st, [Eff.send (Msg.wrongPhase t.phase allowed)])

/-- Modelled from the spec: `_restore_tournament` (defined outside the provided
sources). It deserializes the persisted snapshot into a Tournament Aggregate
and, if its phase is `ongoing`, starts its Reconciliation Loop; the empty
marker holds no snapshot, so deserialization fails on it, and any other
deserialization or sync error is represented by the `deserOk` oracle being
false. -/
def restore_tournament (deserOk : Bool) (store : Option Tournament) :
    Except Unit Tournament :=
  match store with
  | none => Except.error ()
  | some t =>
      if deserOk then
        Except.ok { t with taskRunning := decide (t.phase = Phase.ongoing) }
      else Except.error ()

/-- Modelled from the spec: the per-match pause effect — a match that is
`ongoing` at the moment of the pause gets AFK flagging disabled, any other
match is left untouched. -/
def pauseMatch (m : GameMatch) : GameMatch :=
  if m.state = MatchState.ongoing then { m with afkEnabled := false } else m

/-- Modelled from the spec: `Tournament.stop_loop_task` (defined in
`objects.py`, not among the provided sources). It cancels the loop task and,
as both the spec and the pause command's own help text state, disables AFK
flagging on every match that is `ongoing` at that moment, stored as a
per-match flag that is part of the persisted snapshot. -/
def stop_loop_task (t : Tournament) : Tournament :=
  { t with taskRunning := false, matchList := t.matchList.map pauseMatch }

/-- Modelled from the spec: the AFK-detection stage of the reconciliation tick
applied to one match. An `ongoing` match whose last activity is at least
`threshold` old is flagged `flagged_afk`, unless AFK flagging has been
disabled for that match. -/
def afkOne (now threshold : Nat) (m : GameMatch) : GameMatch :=
  if m.state = MatchState.ongoing ∧ m.afkEnabled = true ∧
      m.lastActivity + threshold ≤ now then
    { m with state := MatchState.flagged_afk }
  else m

/-- Modelled from the spec: the AFK-detection stage of the reconciliation tick
over the match list. -/
def afkStage (now threshold : Nat) (matchList : List GameMatch) :
    List GameMatch :=
  matchList.map (afkOne now threshold)

/-- `tournamentfix_reload` (`troubleshooting.py`, lines 37-64). Gated by the
no-argument `only_phase`. Saves the aggregate, deletes it from the registry,
then attempts `_restore_tournament`, reporting success or failure. The source
contains no call stopping the loop task. -/
def tournamentfix_reload (deserOk : Bool) (st : CogState) :
    CogState × List Eff :=
  only_phase [] st (fun tournament =>
    let st1 : CogState := { st with store := some tournament }
    let st2 : CogState := { st1 with tournaments := none }
    match restore_tournament deserOk st2.store with
    | Except.error _ =>
        (st2, [Eff.save, Eff.restoreAttempt, Eff.send Msg.reloadFailed])
    | Except.ok t =>
        ({ st2 with tournaments := some t },
         [Eff.save, Eff.restoreAttempt, Eff.send Msg.reloaded]))

/-- `tournamentfix_restore` (`troubleshooting.py`, lines 66-100). Not phase
gated. If an aggregate is already registered, it reports so and returns. If
the stored data is the empty marker, the "nothing saved on disk" message is
sent and — exactly as in the source, where that branch has no `return` —
execution continues into the restore attempt. -/
def tournamentfix_restore (deserOk : Bool) (st : CogState) :
    CogState × List Eff :=
  match st.tournaments with
  | some _ => (st, [Eff.send Msg.alreadySetup])
  | none =>
      let pre : List Eff :=
        if st.store = none then [Eff.send Msg.nothingOnDisk] else []
      match restore_tournament deserOk st.store with
      | Except.error _ =>
          (st, pre ++ [Eff.restoreAttempt, Eff.send Msg.restoreFailed])
      | Except.ok t =>
          ({ st with tournaments := some t },
           pre ++ [Eff.restoreAttempt, Eff.send Msg.restored])

/-- `tournamentfix_hardreset` (`troubleshooting.py`, lines 102-143), taking
the confirmed path of the reaction prompt (the prompt is operator-surface
interaction, outside the spec's scope). Stops the loop task, removes the
aggregate from the registry and overwrites the store entry with the empty
marker. -/
def tournamentfix_hardreset (st : CogState) : CogState × List Eff :=
  only_phase [] st (fun _ =>
    ({ tournaments := none, store := none },
     [Eff.stopLoop, Eff.save, Eff.send Msg.hardResetDone]))

/-- `tournamentfix_resetmatches` (`troubleshooting.py`, lines 145-178). Gated
on phase `ongoing`. When `try_delete`, the channels attached to the current
matches are captured first; matches and participants are cleared and saved;
then each captured channel is deleted, failures (given by the `delFails`
oracle) being counted without stopping the batch. -/
def tournamentfix_resetmatches (delFails : Nat → Bool) (try_delete : Bool)
    (st : CogState) : CogState × List Eff :=
  only_phase [Phase.ongoing] st (fun tournament =>
    let channels : List Nat :=
      if try_delete then tournament.matchList.filterMap (fun x => x.channel)
      else []
    let t2 : Tournament := { tournament with matchList := [], participants := [] }
    let st2 : CogState := { st with tournaments := some t2, store := some t2 }
    if try_delete = false then
      (st2, [Eff.save, Eff.send Msg.matchesReset])
    else
      (st2,
       [Eff.save, Eff.send Msg.matchesResetDeleting]
         ++ channels.map Eff.deleteChannel
         ++ [Eff.send (Msg.channelsDeleted (channels.filter delFails).length)]))

/-- `tournamentfix_resetparticipants` (`troubleshooting.py`, lines 180-217).
Gated on phases `register` and `checkin`. When `try_remove`, the participants
are captured first — but only if a participant role is configured, otherwise
the captured list is empty; participants are cleared and saved; then the role
is removed from each captured participant, failures (the `roleFails` oracle)
counted individually. -/
def tournamentfix_resetparticipants (roleFails : Nat → Bool)
    (try_remove : Bool) (st : CogState) : CogState × List Eff :=
  only_phase [Phase.register, Phase.checkin] st (fun tournament =>
    let captured : List Participant :=
      if try_remove then
        (if tournament.participant_role.isSome then tournament.participants
         else [])
      else []
    let t2 : Tournament := { tournament with participants := [] }
    let st2 : CogState := { st with tournaments := some t2, store := some t2 }
    if try_remove = false then
      (st2, [Eff.save, Eff.send Msg.participantsReset])
    else
      (st2,
       [Eff.save, Eff.send Msg.participantsResetRemoving]
         ++ captured.map (fun p => Eff.removeRole p.pid)
         ++ [Eff.send (Msg.rolesRemoved
              (captured.filter (fun p => roleFails p.pid)).length)]))

/-- `tournamentfix_refresh` (`troubleshooting.py`, lines 219-246). Gated by
the no-argument `only_phase`. Fetches the remote data (the result of
`ChallongeTournament.show` is the `fetchedName`/`fetchedLimit` oracle) and
overwrites the tournament's `name` and `limit` fields only. -/
def tournamentfix_refresh (fetchedName : String) (fetchedLimit : Option Nat)
    (st : CogState) : CogState × List Eff :=
  only_phase [] st (fun tournament =>
    let t2 : Tournament :=
      { tournament with name := fetchedName, limit := fetchedLimit }
    ({ st with tournaments := some t2 },
     [Eff.bracketFetch tournament.tid, Eff.send Msg.refreshed]))

/-- `tournamentfix_pausetask` (`troubleshooting.py`, lines 248-280). Gated on
phase `ongoing`. If the task is not active, it reports so; otherwise it calls
`stop_loop_task`. -/
def tournamentfix_pausetask (st : CogState) : CogState × List Eff :=
  only_phase [Phase.ongoing] st (fun tournament =>
    if tournament.taskRunning = false then
      (st, [Eff.send Msg.taskNotActive])
    else
      ({ st with tournaments := some (stop_loop_task tournament) },
       [Eff.stopLoop, Eff.send Msg.loopStopped]))

/-- `tournamentfix_resumetask` (`troubleshooting.py`, lines 282-310). Gated on
phase `ongoing`. Runs the loop body once synchronously (the body itself lives
outside the provided sources; the `tickOk` oracle gives its outcome); on
failure the loop is not restarted and the failure is reported; on success the
loop task is started again. -/
def tournamentfix_resumetask (tickOk : Bool) (st : CogState) :
    CogState × List Eff :=
  only_phase [Phase.ongoing] st (fun tournament =>
    if tickOk then
      ({ st with tournaments := some { tournament with taskRunning := true } },
       [Eff.runTickOnce, Eff.startLoop, Eff.send Msg.resumed])
    else
      (st, [Eff.runTickOnce, Eff.send Msg.resumeFailed]))

/-- `tournamentfix_runtaskonce` (`troubleshooting.py`, lines 312-332). Gated
on phase `ongoing`. Runs the loop body once and reports the outcome. -/
def tournamentfix_runtaskonce (tickOk : Bool) (st : CogState) :
    CogState × List Eff :=
  only_phase [Phase.ongoing] st (fun _ =>
    if tickOk then (st, [Eff.runTickOnce, Eff.send Msg.tickDone])
    else (st, [Eff.runTickOnce, Eff.send Msg.tickError]))

/-- A state with no live aggregate and the empty marker on disk. -/
def noTournamentEmptyStore : CogState := { tournaments := none, store := none }

/-- An ongoing match with the given id and channel. -/
def mkMatch (i : Nat) (ch : Option Nat) : GameMatch :=
  { mid := i, channel := ch, state := MatchState.ongoing, lastActivity := 0,
    afkEnabled := true }

/-- A live ongoing tournament whose loop task is running. -/
def runningTournament : Tournament :=
  { tid := 42, name := "alpha", limit := some 128, phase := Phase.ongoing,
    participants := [{ pid := 1 }], matchList := [], participant_role := none,
    taskRunning := true }

/-- A state where `runningTournament` is registered and on disk. -/
def runningState : CogState :=
  { tournaments := some runningTournament, store := some runningTournament }

/-- A state with no live aggregate but a snapshot on disk. -/
def unregisteredState : CogState :=
  { tournaments := none, store := some runningTournament }

/-- `runningTournament` with a stopped loop task. -/
def pausedTournament : Tournament :=
  { runningTournament with taskRunning := false }

/-- A state where the ongoing tournament is registered with a stopped loop. -/
def pausedState : CogState :=
  { tournaments := some pausedTournament, store := some pausedTournament }

/-- A tournament in the registration phase with participants but no
configured participant role. -/
def registrationTournament : Tournament :=
  { tid := 5, name := "reg", limit := none, phase := Phase.register,
    participants := [{ pid := 3 }, { pid := 4 }], matchList := [],
    participant_role := none, taskRunning := false }

/-- The five-match scenario of the spec: five matches, three of which have an
attached channel. -/
def fiveMatchTournament : Tournament :=
  { tid := 7, name := "five", limit := none, phase := Phase.ongoing,
    participants := [{ pid := 1 }, { pid := 2 }],
    matchList := [mkMatch 1 (some 11), mkMatch 2 none, mkMatch 3 (some 13),
                  mkMatch 4 none, mkMatch 5 (some 15)],
    participant_role := none, taskRunning := true }

/-- The pause scenario of the spec: two `ongoing` matches and one `pending`
match. -/
def twoOngoingTournament : Tournament :=
  { tid := 9, name := "pair", limit := none, phase := Phase.ongoing,
    participants := [],
    matchList := [mkMatch 1 (some 21),
                  { mkMatch 2 none with state := MatchState.pending },
                  mkMatch 3 none],
    participant_role := none, taskRunning := true }

/-- Claim C1: at a state with no live aggregate and the empty marker on disk,
the `restore` command reports that nothing is saved, but — the branch having
no early return in the source — it still attempts to deserialize and
additionally reports a restore failure, instead of stopping at the
`NothingToRestore` report. -/
theorem C1_restore_empty_marker_still_attempts :
    tournamentfix_restore true noTournamentEmptyStore =
      (noTournamentEmptyStore,
       [Eff.send Msg.nothingOnDisk, Eff.restoreAttempt,
        Eff.send Msg.restoreFailed])
    ∧ Eff.restoreAttempt ∈ (tournamentfix_restore true noTournamentEmptyStore).2 := by
  exact ⟨rfl, by decide⟩

/-- Claim C2, counterexample: on a live tournament whose loop task is
running, `reload` never emits a stop of the loop task — the claimed "stop its
reconciliation loop" step is absent from the source. -/
theorem C2_reload_claim_counterexample :
    Eff.stopLoop ∉ (tournamentfix_reload false runningState).2 := by decide

/-- Claim C2 (amended): for a registered aggregate, `reload` persists the
current state, removes the aggregate from the registry — without stopping its
loop task — and then performs the restore; when the restore step fails, the
tenant ends up unregistered while the snapshot persisted at the start is
still on disk, and the failure is reported to the operator. -/
theorem C2_reload_sequence (t : Tournament) (sto : Option Tournament) :
    tournamentfix_reload false (⟨some t, sto⟩ : CogState) =
      (⟨none, some t⟩, [Eff.save, Eff.restoreAttempt, Eff.send Msg.reloadFailed])
    ∧ tournamentfix_reload true (⟨some t, sto⟩ : CogState) =
      (⟨some { t with taskRunning := decide (t.phase = Phase.ongoing) }, some t⟩,
       [Eff.save, Eff.restoreAttempt, Eff.send Msg.reloaded])
    ∧ Eff.stopLoop ∉ (tournamentfix_reload false (⟨some t, sto⟩ : CogState)).2 := by
  refine ⟨rfl, rfl, ?_⟩
  show Eff.stopLoop ∉ [Eff.save, Eff.restoreAttempt, Eff.send Msg.reloadFailed]
  decide

/-- Claim C3: hard reset on a live tournament stops the loop, removes the
aggregate from the registry and overwrites the store entry with the empty
marker, emitting no bracket-service call and no platform-resource deletion;
but the immediately following `restore` does not stop at the
`NothingToRestore` report: because of the missing return in the restore
command it also attempts deserialization and additionally reports a restore
failure. -/
theorem C3_hardreset_then_restore :
    tournamentfix_hardreset runningState =
      (noTournamentEmptyStore,
       [Eff.stopLoop, Eff.save, Eff.send Msg.hardResetDone])
    ∧ (tournamentfix_hardreset runningState).2.filter isExternal = []
    ∧ tournamentfix_restore true (tournamentfix_hardreset runningState).1 =
      ((tournamentfix_hardreset runningState).1,
       [Eff.send Msg.nothingOnDisk, Eff.restoreAttempt,
        Eff.send Msg.restoreFailed]) := by
  refine ⟨rfl, rfl, rfl⟩

/-- Claim C4: every phase-gated command rejected by the gate — either because
no live aggregate is registered (`NoActiveTournament`) or because the
aggregate's phase is outside the declared allowed set (`PhaseMismatch`) —
returns the state completely unchanged, with the rejection report as its only
effect. -/
theorem C4_phase_gate (t : Tournament) (sto sto2 : Option Tournament)
    (d td tr : Bool) (df rf : Nat → Bool) (n : String) (l : Option Nat) :
    (tournamentfix_reload d (⟨none, sto⟩ : CogState)
        = (⟨none, sto⟩, [Eff.send Msg.noTournament])
     ∧ tournamentfix_hardreset (⟨none, sto⟩ : CogState)
        = (⟨none, sto⟩, [Eff.send Msg.noTournament])
     ∧ tournamentfix_resetmatches df td (⟨none, sto⟩ : CogState)
        = (⟨none, sto⟩, [Eff.send Msg.noTournament])
     ∧ tournamentfix_resetparticipants rf tr (⟨none, sto⟩ : CogState)
        = (⟨none, sto⟩, [Eff.send Msg.noTournament])
     ∧ tournamentfix_refresh n l (⟨none, sto⟩ : CogState)
        = (⟨none, sto⟩, [Eff.send Msg.noTournament])
     ∧ tournamentfix_pausetask (⟨none, sto⟩ : CogState)
        = (⟨none, sto⟩, [Eff.send Msg.noTournament])
     ∧ tournamentfix_resumetask d (⟨none, sto⟩ : CogState)
        = (⟨none, sto⟩, [Eff.send Msg.noTournament])
     ∧ tournamentfix_runtaskonce d (⟨none, sto⟩ : CogState)
        = (⟨none, sto⟩, [Eff.send Msg.noTournament]))
    ∧ (t.phase ∉ ([Phase.ongoing] : List Phase) →
        tournamentfix_resetmatches df td (⟨some t, sto2⟩ : CogState)
          = (⟨some t, sto2⟩, [Eff.send (Msg.wrongPhase t.phase [Phase.ongoing])])
        ∧ tournamentfix_pausetask (⟨some t, sto2⟩ : CogState)
          = (⟨some t, sto2⟩, [Eff.send (Msg.wrongPhase t.phase [Phase.ongoing])])
        ∧ tournamentfix_resumetask d (⟨some t, sto2⟩ : CogState)
          = (⟨some t, sto2⟩, [Eff.send (Msg.wrongPhase t.phase [Phase.ongoing])])
        ∧ tournamentfix_runtaskonce d (⟨some t, sto2⟩ : CogState)
          = (⟨some t, sto2⟩, [Eff.send (Msg.wrongPhase t.phase [Phase.ongoing])]))
    ∧ (t.phase ∉ ([Phase.register, Phase.checkin] : List Phase) →
        tournamentfix_resetparticipants rf tr (⟨some t, sto2⟩ : CogState)
          = (⟨some t, sto2⟩,
             [Eff.send (Msg.wrongPhase t.phase [Phase.register, Phase.checkin])])) := by
  refine ⟨⟨rfl, rfl, rfl, rfl, rfl, rfl, rfl, rfl⟩, ?_, ?_⟩
  · intro hph
    refine ⟨?_, ?_, ?_, ?_⟩ <;>
      simp_all [tournamentfix_resetmatches, tournamentfix_pausetask,
        tournamentfix_resumetask, tournamentfix_runtaskonce, only_phase]
  · intro hph
    simp_all [tournamentfix_resetparticipants, only_phase]

/-- Claim C4, witness: a state with no aggregate is rejected with the
`NoActiveTournament` report, and a tournament in phase `ongoing` is rejected
by the registration-gated participants reset with the `PhaseMismatch`
report; both leave the state untouched. -/
theorem C4_phase_gate_witness :
    tournamentfix_pausetask (⟨none, none⟩ : CogState)
      = (⟨none, none⟩, [Eff.send Msg.noTournament])
    ∧ tournamentfix_resetparticipants (fun _ => false) true
        (⟨some runningTournament, some runningTournament⟩ : CogState)
      = (⟨some runningTournament, some runningTournament⟩,
         [Eff.send (Msg.wrongPhase Phase.ongoing
            [Phase.register, Phase.checkin])]) := by
  constructor
  · exact (C4_phase_gate runningTournament none none true true true
      (fun _ => false) (fun _ => false) "" none).1.2.2.2.2.2.1
  · exact (C4_phase_gate runningTournament none (some runningTournament)
      true true true (fun _ => false) (fun _ => false) "" none).2.2 (by decide)

/-- Claim C5: for a registered tournament in phase `ongoing` with a stopped
loop, a `resumetask` whose synchronous dry run fails leaves the state
unchanged — the loop stays stopped and the tournament stays registered with
its phase intact — runs the tick body exactly once, reports the failure, and
never emits a loop start. -/
theorem C5_resumetask_dry_run_failure (t : Tournament) (sto : Option Tournament)
    (hp : t.phase = Phase.ongoing) (_hl : t.taskRunning = false) :
    tournamentfix_resumetask false (⟨some t, sto⟩ : CogState) =
      (⟨some t, sto⟩, [Eff.runTickOnce, Eff.send Msg.resumeFailed])
    ∧ Eff.startLoop ∉ (tournamentfix_resumetask false (⟨some t, sto⟩ : CogState)).2
    ∧ (tournamentfix_resumetask false (⟨some t, sto⟩ : CogState)).1.tournaments
        = some t := by
  have h : tournamentfix_resumetask false (⟨some t, sto⟩ : CogState) =
      (⟨some t, sto⟩, [Eff.runTickOnce, Eff.send Msg.resumeFailed]) := by
    simp [tournamentfix_resumetask, only_phase, hp]
  refine ⟨h, ?_, ?_⟩
  · rw [h]; simp
  · rw [h]

/-- Claim C5, witness: on the paused ongoing tournament, a failing dry run
leaves the state unchanged and reports the failure. -/
theorem C5_resumetask_dry_run_failure_witness :
    tournamentfix_resumetask false pausedState =
      (pausedState, [Eff.runTickOnce, Eff.send Msg.resumeFailed]) :=
  (C5_resumetask_dry_run_failure pausedTournament (some pausedTournament)
    rfl rfl).1

/-- Claim C6: for a registered tournament in phase `ongoing`, `resetmatches`
with deletion requested captures the channels attached to the current matches
before clearing, empties `matches` and `participants`, persists, then emits
one deletion per captured channel and finally reports the number of failed
deletions given by the deletion oracle — the cleared, persisted state being
independent of how many deletions fail. -/
theorem C6_resetmatches_delete (df : Nat → Bool) (t : Tournament)
    (sto : Option Tournament) (hp : t.phase = Phase.ongoing) :
    tournamentfix_resetmatches df true (⟨some t, sto⟩ : CogState) =
      (⟨some { t with matchList := [], participants := [] },
        some { t with matchList := [], participants := [] }⟩,
       [Eff.save, Eff.send Msg.matchesResetDeleting]
         ++ (t.matchList.filterMap (fun x => x.channel)).map Eff.deleteChannel
         ++ [Eff.send (Msg.channelsDeleted
              ((t.matchList.filterMap (fun x => x.channel)).filter df).length)]) := by
  simp [tournamentfix_resetmatches, only_phase, hp]

/-- Claim C6, witness — the spec scenario: five matches, three attached
channels, the deletion of channel 13 forced to fail; the result reports one
failed deletion and the match and participant lists are empty and persisted
as such. -/
theorem C6_resetmatches_delete_witness :
    tournamentfix_resetmatches (fun c => decide (c = 13)) true
        (⟨some fiveMatchTournament, some fiveMatchTournament⟩ : CogState) =
      (⟨some { fiveMatchTournament with matchList := [], participants := [] },
        some { fiveMatchTournament with matchList := [], participants := [] }⟩,
       [Eff.save, Eff.send Msg.matchesResetDeleting, Eff.deleteChannel 11,
        Eff.deleteChannel 13, Eff.deleteChannel 15,
        Eff.send (Msg.channelsDeleted 1)]) := by
  have h := C6_resetmatches_delete (fun c => decide (c = 13))
    fiveMatchTournament (some fiveMatchTournament) rfl
  simpa [fiveMatchTournament, mkMatch] using h

/-- Claim C7: pausing the loop of a registered `ongoing` tournament with an
active task replaces the aggregate by `stop_loop_task` of it: AFK flagging is
disabled on exactly the matches that are `ongoing` at that moment (all other
matches are left untouched, and the flag lives on the match records that the
snapshot persists), and the AFK-detection stage run on the paused match list
never turns one of those matches into `flagged_afk`, whatever the current
time and threshold. -/
theorem C7_pause_afk (t : Tournament) (sto : Option Tournament)
    (hp : t.phase = Phase.ongoing) (ht : t.taskRunning = true) :
    tournamentfix_pausetask (⟨some t, sto⟩ : CogState) =
      (⟨some (stop_loop_task t), sto⟩,
       [Eff.stopLoop, Eff.send Msg.loopStopped])
    ∧ (stop_loop_task t).matchList = t.matchList.map pauseMatch
    ∧ (∀ m : GameMatch, m.state = MatchState.ongoing →
        (pauseMatch m).afkEnabled = false ∧
        (pauseMatch m).state = MatchState.ongoing)
    ∧ (∀ m : GameMatch, m.state ≠ MatchState.ongoing → pauseMatch m = m)
    ∧ (∀ now threshold : Nat,
        afkStage now threshold (stop_loop_task t).matchList
          = t.matchList.map (fun m => afkOne now threshold (pauseMatch m)))
    ∧ (∀ (now threshold : Nat) (m : GameMatch),
        m.state = MatchState.ongoing →
        (afkOne now threshold (pauseMatch m)).state ≠ MatchState.flagged_afk) := by
  refine ⟨?_, rfl, ?_, ?_, ?_, ?_⟩
  · simp [tournamentfix_pausetask, only_phase, hp, ht]
  · intro m hm
    simp [pauseMatch, hm]
  · intro m hm
    simp [pauseMatch, hm]
  · intro now threshold
    simp [afkStage, stop_loop_task, List.map_map, Function.comp]
  · intro now threshold m hm
    simp [pauseMatch, afkOne, hm]

/-- Claim C7, witness — the spec scenario: pausing with two `ongoing` matches
stops the loop and rewrites the match list through `pauseMatch`, and a
formerly ongoing, pause-protected match is not flagged by the AFK stage even
with a zero threshold far past its last activity. -/
theorem C7_pause_afk_witness :
    tournamentfix_pausetask (⟨some twoOngoingTournament, none⟩ : CogState) =
      (⟨some (stop_loop_task twoOngoingTournament), none⟩,
       [Eff.stopLoop, Eff.send Msg.loopStopped])
    ∧ (afkOne 1000 0 (pauseMatch (mkMatch 1 (some 21)))).state ≠
        MatchState.flagged_afk := by
  refine ⟨(C7_pause_afk twoOngoingTournament none rfl rfl).1,
    (C7_pause_afk twoOngoingTournament none rfl rfl).2.2.2.2.2 1000 0
      (mkMatch 1 (some 21)) rfl⟩

/-- Claim C8: when an aggregate is already registered, `restore` is rejected:
the registry entry and the store are completely unchanged, no restore attempt
is made, and the registry keeps holding the single live aggregate it held. -/
theorem C8_restore_rejected_when_registered (d : Bool) (t : Tournament)
    (sto : Option Tournament) :
    tournamentfix_restore d (⟨some t, sto⟩ : CogState) =
      (⟨some t, sto⟩, [Eff.send Msg.alreadySetup])
    ∧ Eff.restoreAttempt ∉ (tournamentfix_restore d (⟨some t, sto⟩ : CogState)).2
    ∧ (tournamentfix_restore d (⟨some t, sto⟩ : CogState)).1.tournaments
        = some t := by
  exact ⟨rfl, by simp [tournamentfix_restore], rfl⟩

/-- Claim C9: on a registered tournament in any phase, `refresh` performs one
bracket-service fetch and overwrites exactly the `name` and `limit` fields
with the fetched values, leaving participants, matches, phase — and every
other field — unchanged, and leaving the store untouched. -/
theorem C9_refresh_frame (n : String) (l : Option Nat) (t : Tournament)
    (sto : Option Tournament) :
    tournamentfix_refresh n l (⟨some t, sto⟩ : CogState) =
      (⟨some { t with name := n, limit := l }, sto⟩,
       [Eff.bracketFetch t.tid, Eff.send Msg.refreshed])
    ∧ ({ t with name := n, limit := l } : Tournament).participants
        = t.participants
    ∧ ({ t with name := n, limit := l } : Tournament).matchList = t.matchList
    ∧ ({ t with name := n, limit := l } : Tournament).phase = t.phase := by
  exact ⟨rfl, rfl, rfl, rfl⟩

/-- Claim C10: in phase `register` or `checkin`, with no participant role
configured, `resetparticipants` with role removal requested still clears the
participants and persists, but attempts zero role removals and reports zero
failures — no role-removal call is ever emitted. -/
theorem C10_resetparticipants_no_role (rf : Nat → Bool) (t : Tournament)
    (sto : Option Tournament)
    (hp : t.phase = Phase.register ∨ t.phase = Phase.checkin)
    (hr : t.participant_role = none) :
    tournamentfix_resetparticipants rf true (⟨some t, sto⟩ : CogState) =
      (⟨some { t with participants := [] },
        some { t with participants := [] }⟩,
       [Eff.save, Eff.send Msg.participantsResetRemoving,
        Eff.send (Msg.rolesRemoved 0)]) := by
  rcases hp with hp | hp <;>
    simp [tournamentfix_resetparticipants, only_phase, hp, hr]

/-- Claim C10, witness: the registration-phase tournament with two
participants and no configured role is cleared and persisted with zero
role removals reported. -/
theorem C10_resetparticipants_no_role_witness :
    tournamentfix_resetparticipants (fun _ => true) true
        (⟨some registrationTournament, some registrationTournament⟩ : CogState) =
      (⟨some { registrationTournament with participants := [] },
        some { registrationTournament with participants := [] }⟩,
       [Eff.save, Eff.send Msg.participantsResetRemoving,
        Eff.send (Msg.rolesRemoved 0)]) :=
  C10_resetparticipants_no_role (fun _ => true) registrationTournament
    (some registrationTournament) (Or.inl rfl) rfl

end TFix
